import Mathlib

/-!
Shallow embedding of the YOLO-TIF defect-inspection web application
(`src/app.py`) and proofs about its core pipeline: the video processing
loop (`process_video`, lines 48-90), the single-image branch of the
upload handler (lines 115-122), the history ledger (`load_history`,
`save_history`, lines 35-46, and the append pattern in `upload_file`,
lines 128-146), and the reset endpoint (`clear_history`, lines 200-214).

Machine-level collaborators (OpenCV capture/writer, the YOLO model,
the filesystem) are modelled as explicit environment parameters: the
frame source is the list of frames the capture yields before its first
failed read, the detector/tracker is a state-threaded function that may
raise, the writer-open outcome and the size of the produced container
file are environment-given oracles.
-/

namespace YoloTif

/-- One decoded video frame (or image): `size` models `frame.size`
(number of elements of the numpy array, 0 for an empty frame), `pix`
is an abstract payload distinguishing frame contents. -/
structure Frame where
  size : Nat
  pix : Nat
deriving DecidableEq, Repr

/-- The result of one detector/tracker invocation (`results[0]` in the
source): `boxes` are the xyxy boxes, `classes` the per-box class ids
(`results[0].boxes.cls`), `ids` models `results[0].boxes.id` — `none`
when the tracker assigned no identities, otherwise the per-box track
ids — and `plotted` is the annotated image `results[0].plot()`. -/
structure DetResult where
  boxes : List (Int × Int × Int × Int)
  classes : List Nat
  ids : Option (List Int)
  plotted : Frame
deriving DecidableEq, Repr

/-- The exceptions `process_video` can propagate: the two RuntimeErrors
it raises itself (writer open failure, line 61, and the zero-size
output check, line 88) and any exception re-raised from the
detector/tracker call inside the loop. -/
inductive PErr where
  | sinkOpen (path : String)
  | emptyOutput
  | external (msg : String)
deriving DecidableEq, Repr

deriving instance DecidableEq for Except

/-- Human-readable text of an exception, as `str(e)` would render it. -/
def PErr.msg : PErr → String
  | .sinkOpen p => "Не удалось открыть VideoWriter для файла " ++ p
  | .emptyOutput => "Видео не содержит записанных кадров"
  | .external e => e

/-- Environment of one `process_video` run: what `cv2.VideoCapture`,
`cv2.VideoWriter` and `model.track` do on this input. `frames` are the
frames `cap.read` yields before its first failed read; `fps` is
`cap.get(CAP_PROP_FPS)` with `none` standing for NaN; `writerOpens` is
`out.isOpened()`; `track` is the stateful tracker (state type `σ`
threaded through the calls, `persist=True`), which may raise; `σ0` is
its state at run start; `fileSize` gives `os.path.getsize` of the
container the writer produced from a given written-frame sequence. -/
structure VideoEnv (σ : Type) where
  frames : List Frame
  fps : Option Nat
  width : Nat
  height : Nat
  writerOpens : Bool
  track : σ → Frame → Except String (σ × DetResult)
  σ0 : σ
  fileSize : List Frame → Nat

/-- The fps actually passed to the writer: 25 when the capture reports
0 or NaN (lines 50-52). -/
def effectiveFps : Option Nat → Nat
  | none => 25
  | some f => if f = 0 then 25 else f

/-- Outcome of a `process_video` run, including its side effects on the
process state: the frames written to the sink so far, and whether
`cap.release()` / `out.release()` were reached. -/
structure PVOut where
  result : Except PErr (String × Nat)
  written : List Frame
  capReleased : Bool
  outReleased : Bool

/-- The `while True` loop of `process_video` (lines 64-82): read frames
in order, skip empty ones, run the tracker, accumulate every returned
track id into `unique_ids` (line 79: all classes count as defects),
append the annotated frame to the sink. Returns the final id set, or
the detector exception, together with the frames written so far. -/
def runLoop {σ : Type} (track : σ → Frame → Except String (σ × DetResult)) :
    σ → List Frame → Finset ℤ → List Frame →
    Except String (Finset ℤ) × List Frame
  | _, [], ids, written => (Except.ok ids, written)
  | s, f :: rest, ids, written =>
    if f.size = 0 then
      runLoop track s rest ids written
    else
      match track s f with
      | Except.error e => (Except.error e, written)
      | Except.ok (s', r) =>
        let ids' :=
          match r.ids with
          | none => ids
          | some track_ids => track_ids.foldl (fun acc t => insert t acc) ids
        runLoop track s' rest ids' (written ++ [r.plotted])

/-- Embedding of `process_video` (lines 48-90). The `filepath` handed
in by `upload_file` is `os.path.join(UPLOAD_FOLDER, filename)` and the
output name is `'processed_' + os.path.basename(filepath)`; the
embedding passes the bare `filename`, on which the join and the
basename cancel. Releases happen exactly where the source reaches
lines 84-85: after the loop completes normally, and on no other path
(the source has no try/finally). -/
def process_video {σ : Type} (env : VideoEnv σ) (filename : String) : PVOut :=
  let _fps := effectiveFps env.fps
  let output_filename := "processed_" ++ filename
  if env.writerOpens = false then
    { result := Except.error (PErr.sinkOpen output_filename)
      written := []
      capReleased := false
      outReleased := false }
  else
    match runLoop env.track env.σ0 env.frames ∅ [] with
    | (Except.error e, written) =>
      { result := Except.error (PErr.external e)
        written := written
        capReleased := false
        outReleased := false }
    | (Except.ok unique_ids, written) =>
      if env.fileSize written = 0 then
        { result := Except.error PErr.emptyOutput
          written := written
          capReleased := true
          outReleased := true }
      else
        { result := Except.ok (output_filename, unique_ids.card)
          written := written
          capReleased := true
          outReleased := true }

/-- The track-id set one detector result contributes: empty when no ids
were assigned, else the set of the returned ids. -/
def frameIds (r : DetResult) : Finset ℤ :=
  match r.ids with
  | none => ∅
  | some track_ids => track_ids.toFinset

/-- Specification-side abstraction of a video run: the sequence of
detector results observed on the non-empty frames, in arrival order;
`none` when the detector raises on some frame. -/
def detSeq {σ : Type} (track : σ → Frame → Except String (σ × DetResult)) :
    σ → List Frame → Option (List DetResult)
  | _, [] => some []
  | s, f :: rest =>
    if f.size = 0 then detSeq track s rest
    else
      match track s f with
      | Except.error _ => none
      | Except.ok (s', r) => (detSeq track s' rest).map (r :: ·)

/-- Union of the track identities over a sequence of detector results:
the set of distinct identities observed across the whole run. -/
def unionIds (rs : List DetResult) : Finset ℤ :=
  rs.foldr (fun r acc => frameIds r ∪ acc) ∅

/-- One history record, the Python dict appended by `upload_file`: the
success dict (lines 140-145) has `count_defect` and no `error`, the
failure dict (lines 130-135) has `error` and no `count_defect`; both
are modelled as one structure with optional fields. -/
structure MediaRec where
  date : String
  file : String
  error : Option String
  count_defect : Option Nat
  is_video : Bool
deriving DecidableEq, Repr

/-- A parsed JSON document as far as the ledger code distinguishes it:
either an array of records, or some other valid JSON value (object,
number, `null`, ...) whose raw text is kept for concreteness. -/
inductive JValue where
  | arr (l : List MediaRec)
  | other (raw : String)
deriving DecidableEq, Repr

/-- State of the `history.json` file: absent, present with content on
which `json.load` raises `JSONDecodeError` (the raw text kept), or
present with content parsing to a JSON value. -/
inductive LedgerFile where
  | absent
  | invalid (raw : String)
  | json (v : JValue)
deriving DecidableEq, Repr

/-- Embedding of `load_history` (lines 35-42): missing file gives `[]`,
a `JSONDecodeError` is caught and gives `[]`, and otherwise whatever
`json.load` parsed is returned as-is. -/
def load_history : LedgerFile → JValue
  | LedgerFile.absent => JValue.arr []
  | LedgerFile.invalid _ => JValue.arr []
  | LedgerFile.json v => v

/-- Reading the ledger file does not write it (`open(HISTORY_FILE, 'r')`
for reading only): the state-passing form of `load_history` returns the
file state unchanged next to the value. -/
def loadS (st : LedgerFile) : JValue × LedgerFile :=
  (load_history st, st)

/-- Embedding of `save_history` (lines 44-46): the file is rewritten
with the JSON serialization of the given list. -/
def save_history (history : List MediaRec) : LedgerFile :=
  LedgerFile.json (JValue.arr history)

/-- The append pattern of `upload_file` (lines 129/136 and 139/146):
`history = load_history(); history.append(r); save_history(history)`.
When `load_history` returned a non-list JSON value, `history.append`
raises `AttributeError` (Python dicts and scalars have no `append`),
modelled as `none`. -/
def append_record (st : LedgerFile) (r : MediaRec) : Option LedgerFile :=
  match load_history st with
  | JValue.arr history => some (save_history (history ++ [r]))
  | JValue.other _ => none

/-- One directory entry as `clear_history` sees it: its name and
whether `os.path.isfile` holds for it. -/
structure Entry where
  name : String
  isFile : Bool
deriving DecidableEq, Repr

/-- The per-folder loop of `clear_history` (lines 205-212): every entry
that is a file gets an `os.remove` attempt (success given by the `rm`
oracle); a failing removal is caught, logged and skipped; non-file
entries are not touched. Later entries are attempted regardless of
earlier failures. -/
def clearFolder (rm : String → Bool) : List Entry → List Entry
  | [] => []
  | e :: rest =>
    if e.isFile && rm e.name then clearFolder rm rest
    else e :: clearFolder rm rest

/-- Number of files (entries with `isFile`) in a folder. -/
def countFiles (l : List Entry) : Nat :=
  (l.filter (fun e => e.isFile)).length

/-- Visible state the handlers read and write: the ledger file and the
two storage folders. -/
structure World where
  ledger : LedgerFile
  uploads : List Entry
  reports : List Entry
deriving DecidableEq, Repr

/-- Responses the handlers produce, as far as the claims distinguish
them. -/
inductive Response where
  | redirect
  | errorPage (msg : String)
  | resultPage (filename : String) (count : Nat) (isVideo : Bool)
deriving DecidableEq, Repr

/-- Embedding of `clear_history` (lines 200-214): dump `[]` into the
history file, then best-effort delete every file of the upload and
report folders, then redirect. -/
def clear_history (rm : String → Bool) (w : World) : World × Response :=
  ({ ledger := save_history []
     uploads := clearFolder rm w.uploads
     reports := clearFolder rm w.reports },
   Response.redirect)

/-- The suffix of a character list starting at its last dot, when a dot
occurs at all. -/
def lastDotSuffix : List Char → Option (List Char)
  | [] => none
  | c :: rest =>
    match lastDotSuffix rest with
    | some e => some e
    | none => if c = '.' then some (c :: rest) else none

/-- Embedding of `os.path.splitext(s)[1]` for a bare filename: the part
from the last dot on, except that a name whose every character before
the last dot is itself a dot (such as `.bashrc`) has no extension —
CPython's leading-dot rule. -/
def splitextExt (s : String) : String :=
  let cs := s.data
  if (cs.dropWhile (fun c => c = '.')).contains '.' then
    match lastDotSuffix cs with
    | some e => String.mk e
    | none => ""
  else ""

/-- Extension of a filename, lowercased, as computed on line 108. -/
def extLower (s : String) : String :=
  String.mk ((splitextExt s).data.map Char.toLower)

/-- The video-extension test of line 109. -/
def isVideoName (filename : String) : Bool :=
  extLower filename ∈ [".mp4", ".avi", ".mov"]

/-- The defect count of the single-image branch (lines 116-122): when
`results[0].boxes.id` is None the id set stays empty, otherwise every
returned track id is added to it; the count is the set's size. -/
def imageDefectCount (r : DetResult) : Nat :=
  let unique_ids : Finset ℤ :=
    match r.ids with
    | none => ∅
    | some track_ids => track_ids.foldl (fun acc tid => insert tid acc) ∅
  unique_ids.card

/-- One upload request as the handler inspects it: whether a `file`
part is present, and the submitted filename. -/
structure UploadReq where
  hasFile : Bool
  filename : String
deriving DecidableEq, Repr

/-- Environment of one `upload_file` request: the generated uuid, the
current timestamp, the video-mode environment, and what `model(...)`
returns on the saved image (possibly an exception). -/
structure UploadEnv (σ : Type) where
  uuid : String
  now : String
  venv : VideoEnv σ
  detectImage : String → Except String DetResult

/-- The try block of `upload_file` (lines 111-127): video files go
through `process_video`, anything else through one `model(filepath)`
call, the id-dedup count and `cv2.imwrite` of the annotated image.
Returns the output filename and defect count, or the exception text. -/
def runProcessing {σ : Type} (env : UploadEnv σ) (filename : String) :
    Except String (String × Nat) :=
  if isVideoName filename then
    match (process_video env.venv filename).result with
    | Except.error e => Except.error e.msg
    | Except.ok (output_filename, defect_count) =>
      Except.ok (output_filename, defect_count)
  else
    match env.detectImage filename with
    | Except.error e => Except.error e
    | Except.ok r =>
      Except.ok ("annotated_" ++ filename, imageDefectCount r)

/-- Embedding of `upload_file` (lines 96-148). Requests without a file
part or with an empty filename redirect before anything is saved. The
upload is stored under `uuid + '_' + original`, processed, and a
history record appended: on exception a failure record with the error
text, otherwise a success record with the defect count (the annotated
output also lands in the upload folder). `none` models the handler
itself crashing: `history.append` on a ledger whose JSON is not an
array. -/
def upload_file {σ : Type} (env : UploadEnv σ) (req : UploadReq) (w : World) :
    Option (World × Response) :=
  if req.hasFile = false then some (w, Response.redirect)
  else if req.filename = "" then some (w, Response.redirect)
  else
    let filename := env.uuid ++ "_" ++ req.filename
    let w1 : World := { w with uploads := w.uploads ++ [⟨filename, true⟩] }
    let is_video := isVideoName filename
    match runProcessing env filename with
    | Except.error e =>
      match load_history w1.ledger with
      | JValue.arr history =>
        some ({ w1 with ledger := save_history (history ++
                  [{ date := env.now, file := filename, error := some e
                     count_defect := none, is_video := is_video }]) },
              Response.errorPage ("Ошибка обработки: " ++ e))
      | JValue.other _ => none
    | Except.ok (output_filename, defect_count) =>
      match load_history w1.ledger with
      | JValue.arr history =>
        some ({ w1 with
                  uploads := w1.uploads ++ [⟨output_filename, true⟩]
                  ledger := save_history (history ++
                    [{ date := env.now, file := output_filename, error := none
                       count_defect := some defect_count, is_video := is_video }]) },
              Response.resultPage output_filename defect_count is_video)
      | JValue.other _ => none

/-! Helper lemmas about the video loop. -/

theorem foldl_insert_eq (ts : List ℤ) (ids : Finset ℤ) :
    ts.foldl (fun acc t => insert t acc) ids = ids ∪ ts.toFinset := by
  induction ts generalizing ids with
  | nil => simp
  | cons t ts ih =>
    simp only [List.foldl_cons, List.toFinset_cons, ih,
      Finset.insert_union, Finset.union_insert]

theorem detSeq_cons {σ : Type}
    (track : σ → Frame → Except String (σ × DetResult))
    (s : σ) (f : Frame) (rest : List Frame) :
    detSeq track s (f :: rest) =
      if f.size = 0 then detSeq track s rest
      else match track s f with
        | Except.error _ => none
        | Except.ok (s', r) => (detSeq track s' rest).map (r :: ·) := rfl

theorem runLoop_cons {σ : Type}
    (track : σ → Frame → Except String (σ × DetResult))
    (s : σ) (f : Frame) (rest : List Frame)
    (ids : Finset ℤ) (written : List Frame) :
    runLoop track s (f :: rest) ids written =
      if f.size = 0 then runLoop track s rest ids written
      else match track s f with
        | Except.error e => (Except.error e, written)
        | Except.ok (s', r) =>
          runLoop track s' rest
            (match r.ids with
             | none => ids
             | some track_ids =>
               track_ids.foldl (fun acc t => insert t acc) ids)
            (written ++ [r.plotted]) := rfl

theorem runLoop_of_detSeq_some {σ : Type}
    (track : σ → Frame → Except String (σ × DetResult)) :
    ∀ (fs : List Frame) (s : σ) (ids0 : Finset ℤ) (w0 : List Frame)
      (rs : List DetResult), detSeq track s fs = some rs →
      runLoop track s fs ids0 w0 =
        (Except.ok (ids0 ∪ unionIds rs), w0 ++ rs.map DetResult.plotted) := by
  intro fs
  induction fs with
  | nil =>
    intro s ids0 w0 rs h
    simp only [detSeq, Option.some.injEq] at h
    subst h
    simp [runLoop, unionIds]
  | cons f fs ih =>
    intro s ids0 w0 rs h
    by_cases hz : f.size = 0
    · rw [detSeq_cons, if_pos hz] at h
      rw [runLoop_cons, if_pos hz]
      exact ih s ids0 w0 rs h
    · rw [detSeq_cons, if_neg hz] at h
      rw [runLoop_cons, if_neg hz]
      cases htr : track s f with
      | error e => rw [htr] at h; exact absurd h (by simp)
      | ok p =>
        obtain ⟨s', r⟩ := p
        rw [htr] at h
        dsimp only at h ⊢
        rw [Option.map_eq_some'] at h
        obtain ⟨rs', hrs', hcons⟩ := h
        subst hcons
        have hids : (match r.ids with
            | none => ids0
            | some track_ids =>
              track_ids.foldl (fun acc t => insert t acc) ids0) =
            ids0 ∪ frameIds r := by
          cases hid : r.ids with
          | none => simp [frameIds, hid]
          | some ts => simp [frameIds, hid, foldl_insert_eq]
        rw [hids, ih s' (ids0 ∪ frameIds r) (w0 ++ [r.plotted]) rs' hrs']
        simp [unionIds, Finset.union_assoc]

theorem runLoop_of_detSeq_none {σ : Type}
    (track : σ → Frame → Except String (σ × DetResult)) :
    ∀ (fs : List Frame) (s : σ) (ids0 : Finset ℤ) (w0 : List Frame),
      detSeq track s fs = none →
      ∃ e, (runLoop track s fs ids0 w0).1 = Except.error e := by
  intro fs
  induction fs with
  | nil => intro s ids0 w0 h; simp [detSeq] at h
  | cons f fs ih =>
    intro s ids0 w0 h
    by_cases hz : f.size = 0
    · rw [detSeq_cons, if_pos hz] at h
      rw [runLoop_cons, if_pos hz]
      exact ih s ids0 w0 h
    · rw [detSeq_cons, if_neg hz] at h
      rw [runLoop_cons, if_neg hz]
      cases htr : track s f with
      | error e =>
        exact ⟨e, rfl⟩
      | ok p =>
        obtain ⟨s', r⟩ := p
        rw [htr] at h
        dsimp only at h
        rw [Option.map_eq_none'] at h
        exact ih s' _ (w0 ++ [r.plotted]) h

theorem detSeq_length {σ : Type}
    (track : σ → Frame → Except String (σ × DetResult)) :
    ∀ (fs : List Frame) (s : σ) (rs : List DetResult),
      detSeq track s fs = some rs →
      rs.length = (fs.filter (fun f => f.size ≠ 0)).length := by
  intro fs
  induction fs with
  | nil =>
    intro s rs h
    simp only [detSeq, Option.some.injEq] at h
    subst h; simp
  | cons f fs ih =>
    intro s rs h
    by_cases hz : f.size = 0
    · rw [detSeq_cons, if_pos hz] at h
      simpa [List.filter_cons, hz] using ih s rs h
    · rw [detSeq_cons, if_neg hz] at h
      cases htr : track s f with
      | error e => rw [htr] at h; exact absurd h (by simp)
      | ok p =>
        obtain ⟨s', r⟩ := p
        rw [htr] at h
        dsimp only at h
        rw [Option.map_eq_some'] at h
        obtain ⟨rs', hrs', hcons⟩ := h
        subst hcons
        simp [List.filter_cons, hz, ih s' rs' hrs']

/-! Claim C1: distinct-identity defect count of a video run. -/

/-- C1: for every video input on which the writer opens, the tracker
completes, and the output container is non-empty, `process_video`
returns a defect count equal to the cardinality of the union of the
track-identity sets observed across all frames of the run — so
re-observing the same identity in many frames does not increase the
count. The witness instantiates the 3-frame scenario with ids
{1, 2, 1} and obtains count 2. -/
theorem process_video_defect_count {σ : Type} (env : VideoEnv σ) (p : String)
    (rs : List DetResult)
    (hopen : env.writerOpens = true)
    (hdet : detSeq env.track env.σ0 env.frames = some rs)
    (hsz : env.fileSize (rs.map DetResult.plotted) ≠ 0) :
    (process_video env p).result =
      Except.ok ("processed_" ++ p, (unionIds rs).card) := by
  have hrl := runLoop_of_detSeq_some env.track env.frames env.σ0 ∅ [] rs hdet
  unfold process_video
  rw [hopen, hrl]
  simp [hsz]

/-- The detector results of the 3-frame scenario: track ids 1, 2, 1. -/
def rsC1 : List DetResult :=
  [⟨[], [], some [1], ⟨1, 1⟩⟩, ⟨[], [], some [2], ⟨1, 2⟩⟩,
   ⟨[], [], some [1], ⟨1, 1⟩⟩]

/-- Concrete 3-frame video environment whose tracker reports id 1 on
frames 1 and 3 and id 2 on frame 2. -/
def envC1 : VideoEnv Nat :=
  { frames := [⟨1, 1⟩, ⟨1, 2⟩, ⟨1, 1⟩]
    fps := some 30, width := 4, height := 4
    writerOpens := true
    track := fun s f => Except.ok (s + 1, ⟨[], [], some [(f.pix : ℤ)], ⟨1, f.pix⟩⟩)
    σ0 := 0
    fileSize := fun l => l.length }

/-- Witness for C1: the 3-frame video with tracker ids {1, 2, 1}
yields defect count 2. -/
theorem process_video_defect_count_witness :
    (process_video envC1 "v.mp4").result = Except.ok ("processed_v.mp4", 2) := by
  have h := process_video_defect_count envC1 "v.mp4" rsC1 rfl rfl (by decide)
  rw [h]
  decide

/-! Claim C5: frame order of the written output. -/

/-- C5: whenever the sink opens and the tracker completes, the frames
written to the output are exactly the annotated versions of the
non-empty input frames, in arrival order (`detSeq` walks the input in
order, skipping only empty frames), and their number equals the number
of non-empty input frames — no reordering, no dropped non-empty frame,
and empty frames are skipped without terminating the loop. -/
theorem process_video_frame_order {σ : Type} (env : VideoEnv σ) (p : String)
    (rs : List DetResult)
    (hopen : env.writerOpens = true)
    (hdet : detSeq env.track env.σ0 env.frames = some rs) :
    (process_video env p).written = rs.map DetResult.plotted ∧
    (rs.map DetResult.plotted).length =
      (env.frames.filter (fun f => f.size ≠ 0)).length := by
  have hrl := runLoop_of_detSeq_some env.track env.frames env.σ0 ∅ [] rs hdet
  have hlen := detSeq_length env.track env.frames env.σ0 rs hdet
  unfold process_video
  rw [hopen, hrl]
  constructor
  · by_cases hsz : env.fileSize (rs.map DetResult.plotted) = 0 <;>
      simp [hsz]
  · simpa using hlen

/-- Concrete 4-frame environment with one empty frame (skipped) among
three non-empty ones. -/
def envC5 : VideoEnv Nat :=
  { frames := [⟨1, 1⟩, ⟨0, 9⟩, ⟨1, 2⟩, ⟨1, 3⟩]
    fps := none, width := 4, height := 4
    writerOpens := true
    track := fun s f => Except.ok (s + 1, ⟨[], [], none, ⟨1, f.pix + 10⟩⟩)
    σ0 := 0
    fileSize := fun l => l.length }

/-- Witness for C5: on a 4-frame input whose second frame is empty, the
output is the three annotated non-empty frames in order. -/
theorem process_video_frame_order_witness :
    (process_video envC5 "v.mp4").written = [⟨1, 11⟩, ⟨1, 12⟩, ⟨1, 13⟩] ∧
    ([⟨1, 11⟩, ⟨1, 12⟩, ⟨1, 13⟩] : List Frame).length = 3 := by
  have h := process_video_frame_order envC5 "v.mp4"
    [⟨[], [], none, ⟨1, 11⟩⟩, ⟨[], [], none, ⟨1, 12⟩⟩, ⟨[], [], none, ⟨1, 13⟩⟩]
    rfl rfl
  exact ⟨h.1, rfl⟩

/-! Claim C6: the ProcessingError conditions of `process_video`. -/

/-- C6: `process_video` raises its own RuntimeError in exactly two
sink-related situations — immediately when the writer cannot be opened
(and then no frame has been written), and after the loop when the
produced file has zero size. Detector exceptions pass through as
`external`, never as these two errors. -/
theorem process_video_error_conditions {σ : Type} (env : VideoEnv σ) (p : String) :
    ((process_video env p).result =
        Except.error (PErr.sinkOpen ("processed_" ++ p)) ↔
      env.writerOpens = false)
    ∧ (env.writerOpens = false → (process_video env p).written = [])
    ∧ ((process_video env p).result = Except.error PErr.emptyOutput ↔
        (env.writerOpens = true ∧
          ∃ rs, detSeq env.track env.σ0 env.frames = some rs ∧
            env.fileSize (rs.map DetResult.plotted) = 0)) := by
  unfold process_video
  cases hw : env.writerOpens with
  | false => simp
  | true =>
    cases hdet : detSeq env.track env.σ0 env.frames with
    | some rs =>
      have hrl := runLoop_of_detSeq_some env.track env.frames env.σ0 ∅ [] rs hdet
      rw [hrl]
      by_cases hsz : env.fileSize (rs.map DetResult.plotted) = 0 <;>
        simp [hsz]
    | none =>
      obtain ⟨e, he⟩ := runLoop_of_detSeq_none env.track env.frames env.σ0 ∅ [] hdet
      rcases hr : runLoop env.track env.σ0 env.frames ∅ [] with ⟨res, w⟩
      rw [hr] at he
      cases res with
      | error e' => simp
      | ok ids => exact absurd he (by simp)

/-- Concrete environment whose writer fails to open. -/
def envC6 : VideoEnv Nat :=
  { frames := [⟨1, 1⟩]
    fps := some 30, width := 4, height := 4
    writerOpens := false
    track := fun s f => Except.ok (s, ⟨[], [], none, f⟩)
    σ0 := 0
    fileSize := fun l => l.length }

/-- Witness for C6: with a writer that fails to open, the run fails
with the sink-open error and no frame has been written. -/
theorem process_video_error_conditions_witness :
    (process_video envC6 "v.mp4").result =
        Except.error (PErr.sinkOpen "processed_v.mp4") ∧
    (process_video envC6 "v.mp4").written = [] :=
  ⟨(process_video_error_conditions envC6 "v.mp4").1.mpr rfl,
   (process_video_error_conditions envC6 "v.mp4").2.1 rfl⟩

/-! Claim C4: release of the capture and writer handles. -/

/-- Concrete environment whose detector raises on the first non-empty
frame: the run aborts inside the loop, before either release. -/
def envC4 : VideoEnv Nat :=
  { frames := [⟨1, 1⟩]
    fps := some 30, width := 4, height := 4
    writerOpens := true
    track := fun _ _ => Except.error "boom"
    σ0 := 0
    fileSize := fun l => l.length }

/-- C4 counterexample: the claim says both handles are released on
every exit path, exceptions included; but when the detector raises
inside the per-frame loop the source propagates the exception past
lines 84-85 (there is no try/finally), so neither `cap.release()` nor
`out.release()` runs. -/
theorem process_video_release_cex :
    (process_video envC4 "v.mp4").result = Except.error (PErr.external "boom") ∧
    (process_video envC4 "v.mp4").capReleased = false ∧
    (process_video envC4 "v.mp4").outReleased = false := by
  decide

/-- C4 amended: the two handles are released exactly on the paths that
reach lines 84-85 — the writer opened and the frame loop completed
without an exception (the zero-size `ProcessingError` is raised after
the releases, so it still releases both); on a sink-open failure or an
exception inside the loop, neither handle is released. -/
theorem process_video_release_amended {σ : Type} (env : VideoEnv σ) (p : String) :
    ((process_video env p).capReleased = true ∧
     (process_video env p).outReleased = true) ↔
    (env.writerOpens = true ∧
      ∃ rs, detSeq env.track env.σ0 env.frames = some rs) := by
  unfold process_video
  cases hw : env.writerOpens with
  | false => simp
  | true =>
    cases hdet : detSeq env.track env.σ0 env.frames with
    | some rs =>
      have hrl := runLoop_of_detSeq_some env.track env.frames env.σ0 ∅ [] rs hdet
      rw [hrl]
      by_cases hsz : env.fileSize (rs.map DetResult.plotted) = 0 <;>
        simp [hsz]
    | none =>
      obtain ⟨e, he⟩ := runLoop_of_detSeq_none env.track env.frames env.σ0 ∅ [] hdet
      rcases hr : runLoop env.track env.σ0 env.frames ∅ [] with ⟨res, w⟩
      rw [hr] at he
      cases res with
      | error e' => simp
      | ok ids => exact absurd he (by simp)

/-- Witness for the amended C4: a well-behaved one-frame run releases
both handles, and the run of `envC4` (detector exception) releases
neither. -/
theorem process_video_release_amended_witness :
    ((process_video envC5 "v.mp4").capReleased = true ∧
     (process_video envC5 "v.mp4").outReleased = true) ∧
    ¬ ((process_video envC4 "v.mp4").capReleased = true ∧
       (process_video envC4 "v.mp4").outReleased = true) :=
  ⟨(process_video_release_amended envC5 "v.mp4").mpr
      ⟨rfl, [⟨[], [], none, ⟨1, 11⟩⟩, ⟨[], [], none, ⟨1, 12⟩⟩,
             ⟨[], [], none, ⟨1, 13⟩⟩], rfl⟩,
   fun hc => by
     obtain ⟨_, rs, hrs⟩ := (process_video_release_amended envC4 "v.mp4").mp hc
     exact Option.noConfusion
       (show (none : Option (List DetResult)) = some rs from hrs)⟩

/-! Claim C2: defect count of a single-image upload without ids. -/

/-- A detector result with two detections of the same class at distinct
positions and no identities assigned (`boxes.id is None`). -/
def imgNoIds : DetResult :=
  ⟨[(0, 0, 10, 10), (50, 50, 60, 60)], [3, 3], none, ⟨1, 0⟩⟩

/-- C2 counterexample: the claim says two detections with no ids give
defect_count = 2 (per-detection policy); but the image branch only ever
adds track ids to the set (lines 117-121), so with `boxes.id` None the
set stays empty and the count is 0, not 2. -/
theorem image_no_ids_count_cex :
    imgNoIds.boxes.length = 2 ∧ imgNoIds.classes = [3, 3] ∧
    imgNoIds.ids = none ∧
    imageDefectCount imgNoIds = 0 ∧ imageDefectCount imgNoIds ≠ 2 := by
  decide

/-- C2 amended: for a single-image upload where the detector assigns no
identities, the defect count is 0 whatever the detections are —
detections without ids are never counted. -/
theorem image_no_ids_count (r : DetResult) (h : r.ids = none) :
    imageDefectCount r = 0 := by
  simp [imageDefectCount, h]

/-- Witness for the amended C2: the two-detection no-ids result counts
0 defects. -/
theorem image_no_ids_count_witness : imageDefectCount imgNoIds = 0 :=
  image_no_ids_count imgNoIds rfl

/-! Claim C3: robustness of `load_history`. -/

/-- Test for the JSON value being an array (a Python list). -/
def JValue.isArr : JValue → Bool
  | JValue.arr _ => true
  | JValue.other _ => false

/-- A ledger file whose content is the well-formed JSON document
`null`: `json.load` parses it without `JSONDecodeError`. -/
def nonArrayLedger : LedgerFile := LedgerFile.json (JValue.other "null")

/-- C3 counterexample: the claim says load returns a sequence for every
file state; but on well-formed non-array content (the JSON document
`null`) `json.load` succeeds, the `JSONDecodeError` handler does not
fire, and `load_history` returns the parsed non-sequence value as-is. -/
theorem load_history_nonseq_cex :
    load_history nonArrayLedger = JValue.other "null" ∧
    (load_history nonArrayLedger).isArr = false := by
  decide

/-- C3 amended: `load_history` is total (never raises, by its type in
this embedding) and returns a sequence for every file state except
well-formed non-array JSON content: a missing file and content that
fails to parse both yield the empty sequence, and array content is
returned as-is. -/
theorem load_history_amended (st : LedgerFile)
    (h : ∀ raw, st ≠ LedgerFile.json (JValue.other raw)) :
    (∃ l, load_history st = JValue.arr l) ∧
    (st = LedgerFile.absent → load_history st = JValue.arr []) ∧
    (∀ raw, st = LedgerFile.invalid raw → load_history st = JValue.arr []) := by
  cases st with
  | absent => exact ⟨⟨[], rfl⟩, fun _ => rfl, fun _ _ => rfl⟩
  | invalid raw =>
    refine ⟨⟨[], rfl⟩, ?_, ?_⟩
    · intro h'; cases h'
    · intro _ _; rfl
  | json v =>
    cases v with
    | arr l =>
      refine ⟨⟨l, rfl⟩, ?_, ?_⟩
      · intro h'; cases h'
      · intro raw h'; cases h'
    | other raw => exact absurd rfl (h raw)

/-- Witness for the amended C3: a missing ledger file loads as the
empty sequence. -/
theorem load_history_amended_witness :
    (∃ l, load_history LedgerFile.absent = JValue.arr l) ∧
    (LedgerFile.absent = LedgerFile.absent →
      load_history LedgerFile.absent = JValue.arr []) ∧
    (∀ raw, LedgerFile.absent = LedgerFile.invalid raw →
      load_history LedgerFile.absent = JValue.arr []) :=
  load_history_amended LedgerFile.absent (fun _ h => LedgerFile.noConfusion h)

/-! Claim C8: append/load round trip and load idempotence. -/

/-- A concrete successful-run record. -/
def recC8 : MediaRec :=
  ⟨"2026-10-12T00:00:00", "processed_v.mp4", none, some 2, true⟩

/-- C8 counterexample: the claim quantifies over every ledger state;
on the state whose content is the well-formed non-array JSON `null`,
`load_history` returns a non-list and `history.append` raises
`AttributeError`, so append does not complete at all. -/
theorem append_record_cex :
    append_record (LedgerFile.json (JValue.other "null")) recC8 = none := by
  decide

/-- C8 amended: for every ledger state whose content loads as a
sequence — a missing file, unparseable content, or an array, which is
every state this application itself ever writes — append followed by
load returns the sequence extended with the record, whose last element
is the record; and load, which performs no write, is idempotent: a
reread after a read returns the same value. -/
theorem append_load_roundtrip (st : LedgerFile) (r : MediaRec)
    (l : List MediaRec) (h : load_history st = JValue.arr l) :
    (∃ st', append_record st r = some st' ∧
      load_history st' = JValue.arr (l ++ [r]) ∧
      (l ++ [r]).getLast? = some r) ∧
    (loadS ((loadS st).2)).1 = (loadS st).1 := by
  refine ⟨⟨save_history (l ++ [r]), ?_, rfl, by simp⟩, rfl⟩
  simp [append_record, h]

/-- Witness for the amended C8: appending to a missing-file ledger and
loading returns the one-element sequence ending in the record. -/
theorem append_load_roundtrip_witness :
    (∃ st', append_record LedgerFile.absent recC8 = some st' ∧
      load_history st' = JValue.arr ([] ++ [recC8]) ∧
      ([] ++ [recC8]).getLast? = some recC8) ∧
    (loadS ((loadS LedgerFile.absent).2)).1 = (loadS LedgerFile.absent).1 :=
  append_load_roundtrip LedgerFile.absent recC8 [] rfl

/-! Claim C7: failed uploads are recorded, not dropped. -/

/-- C7: for every upload whose processing raises an exception (either
mode: `runProcessing` covers the whole try block of lines 111-127),
given a ledger whose content loads as a sequence, the handler does not
drop the run: it appends a failure record carrying the error text and
no defect count, and answers with a readable error message instead of
crashing. -/
theorem upload_failure_recorded {σ : Type} (env : UploadEnv σ)
    (req : UploadReq) (w : World) (l : List MediaRec) (e : String)
    (hf : req.hasFile = true)
    (hn : req.filename ≠ "")
    (hl : load_history w.ledger = JValue.arr l)
    (he : runProcessing env (env.uuid ++ "_" ++ req.filename) = Except.error e) :
    upload_file env req w =
      some ({ ledger := save_history (l ++
                [{ date := env.now
                   file := env.uuid ++ "_" ++ req.filename
                   error := some e
                   count_defect := none
                   is_video := isVideoName (env.uuid ++ "_" ++ req.filename) }])
              uploads := w.uploads ++ [⟨env.uuid ++ "_" ++ req.filename, true⟩]
              reports := w.reports },
            Response.errorPage ("Ошибка обработки: " ++ e)) := by
  unfold upload_file
  rw [hf]
  simp only [Bool.true_eq_false, if_false, if_neg hn]
  rw [he, hl]

/-- Environment of a failing single-image upload: the model call raises. -/
def envW7 : UploadEnv Nat :=
  { uuid := "u", now := "t"
    venv := { frames := [], fps := some 30, width := 4, height := 4
              writerOpens := true
              track := fun s f => Except.ok (s, ⟨[], [], none, f⟩)
              σ0 := 0, fileSize := fun l => l.length }
    detectImage := fun _ => Except.error "boom" }

/-- The request and world of the C7 witness. -/
def reqW7 : UploadReq := ⟨true, "a.jpg"⟩

/-- Starting world of the C7 witness: no ledger file, empty folders. -/
def wW7 : World := ⟨LedgerFile.absent, [], []⟩

/-- Witness for C7: the upload whose image inference raises "boom" is
recorded as a failed run with the error text and no count, and the
caller gets the error page. -/
theorem upload_failure_recorded_witness :
    upload_file envW7 reqW7 wW7 =
      some ({ ledger := save_history ([] ++
                [{ date := "t", file := "u" ++ "_" ++ "a.jpg"
                   error := some "boom", count_defect := none
                   is_video := isVideoName ("u" ++ "_" ++ "a.jpg") }])
              uploads := wW7.uploads ++ [⟨"u" ++ "_" ++ "a.jpg", true⟩]
              reports := wW7.reports },
            Response.errorPage ("Ошибка обработки: " ++ "boom")) :=
  upload_failure_recorded envW7 reqW7 wW7 [] "boom" rfl (by decide) rfl
    (by decide)

/-! Claim C9: what `clear` leaves behind. -/

/-- Removal oracle under which deleting `a.jpg` fails and every other
deletion succeeds. -/
def rmC9 : String → Bool := fun n => !(n == "a.jpg")

/-- A world with two files in the upload folder. -/
def wC9 : World :=
  { ledger := LedgerFile.json (JValue.arr [recC8])
    uploads := [⟨"a.jpg", true⟩, ⟨"b.jpg", true⟩]
    reports := [] }

/-- C9 counterexample: the claim says the storage areas contain zero
files even when some deletions fail; but a file whose `os.remove`
raises is merely logged and skipped, so it remains — after `clear`
with the deletion of `a.jpg` failing, the upload folder still holds
one file. Deletion of the later file `b.jpg` did proceed. -/
theorem clear_history_zero_files_cex :
    (clear_history rmC9 wC9).1.uploads = [⟨"a.jpg", true⟩] ∧
    countFiles (clear_history rmC9 wC9).1.uploads = 1 ∧
    countFiles (clear_history rmC9 wC9).1.uploads ≠ 0 := by
  decide

/-- Number of files of a folder that survive a best-effort sweep. -/
theorem countFiles_clearFolder (rm : String → Bool) (l : List Entry) :
    countFiles (clearFolder rm l) =
      (l.filter (fun e => e.isFile && !(rm e.name))).length := by
  induction l with
  | nil => rfl
  | cons e rest ih =>
    by_cases hf : e.isFile = true
    · by_cases hr : rm e.name = true
      · simp [clearFolder, countFiles, List.filter_cons, hf, hr] at ih ⊢
        exact ih
      · simp only [Bool.not_eq_true] at hr
        simp [clearFolder, countFiles, List.filter_cons, hf, hr] at ih ⊢
        exact ih
    · simp only [Bool.not_eq_true] at hf
      simp [clearFolder, countFiles, List.filter_cons, hf] at ih ⊢
      exact ih

/-- When every file of a folder is removable, the sweep leaves zero
files. -/
theorem countFiles_clearFolder_zero (rm : String → Bool) (l : List Entry)
    (hall : ∀ e ∈ l, e.isFile = true → rm e.name = true) :
    countFiles (clearFolder rm l) = 0 := by
  rw [countFiles_clearFolder, List.length_eq_zero, List.filter_eq_nil_iff]
  intro e he
  simp only [Bool.and_eq_true, Bool.not_eq_true', not_and]
  intro hf
  rw [hall e he hf]
  exact fun h' => Bool.noConfusion h'

/-- C9 amended: after `clear` the ledger loads as the empty sequence
and the handler redirects; deletion is best-effort per file — the
files remaining in each storage area are exactly those whose own
deletion failed, independent of any other file's failure — and the
areas contain zero files whenever every file's deletion succeeds. -/
theorem clear_history_amended (rm : String → Bool) (w : World) :
    load_history (clear_history rm w).1.ledger = JValue.arr [] ∧
    (clear_history rm w).2 = Response.redirect ∧
    countFiles (clear_history rm w).1.uploads =
      (w.uploads.filter (fun e => e.isFile && !(rm e.name))).length ∧
    countFiles (clear_history rm w).1.reports =
      (w.reports.filter (fun e => e.isFile && !(rm e.name))).length ∧
    ((∀ e ∈ w.uploads, e.isFile = true → rm e.name = true) →
      countFiles (clear_history rm w).1.uploads = 0) ∧
    ((∀ e ∈ w.reports, e.isFile = true → rm e.name = true) →
      countFiles (clear_history rm w).1.reports = 0) := by
  exact ⟨rfl, rfl, countFiles_clearFolder rm w.uploads,
    countFiles_clearFolder rm w.reports,
    fun hall => countFiles_clearFolder_zero rm w.uploads hall,
    fun hall => countFiles_clearFolder_zero rm w.reports hall⟩

/-- Witness for the amended C9: when every deletion succeeds, the
upload folder ends with zero files and the ledger is empty. -/
theorem clear_history_amended_witness :
    load_history (clear_history (fun _ => true) wC9).1.ledger =
      JValue.arr [] ∧
    countFiles (clear_history (fun _ => true) wC9).1.uploads = 0 :=
  ⟨(clear_history_amended (fun _ => true) wC9).1,
   (clear_history_amended (fun _ => true) wC9).2.2.2.2.1 (by decide)⟩

/-! Claim C10: requests without a usable file are pure redirects. -/

/-- C10: an upload request with no file part or an empty filename makes
the handler redirect at once: the returned world is the input world —
the ledger file is untouched and nothing is saved into the upload
storage area. -/
theorem upload_noop_redirect {σ : Type} (env : UploadEnv σ) (req : UploadReq)
    (w : World) (h : req.hasFile = false ∨ req.filename = "") :
    upload_file env req w = some (w, Response.redirect) := by
  unfold upload_file
  rcases h with h | h
  · simp [h]
  · by_cases hf : req.hasFile = false
    · simp [hf]
    · simp [hf, h]

/-- Environment for the C10 witness. -/
def envW10 : UploadEnv Nat :=
  { uuid := "u", now := "t"
    venv := { frames := [], fps := some 30, width := 4, height := 4
              writerOpens := true
              track := fun s f => Except.ok (s, ⟨[], [], none, f⟩)
              σ0 := 0, fileSize := fun l => l.length }
    detectImage := fun _ => Except.error "x" }

/-- A world with one prior upload and a non-empty ledger, to make the
frame condition visible. -/
def wW10 : World :=
  { ledger := LedgerFile.json (JValue.arr [recC8])
    uploads := [⟨"old.jpg", true⟩]
    reports := [] }

/-- Witness for C10: a request with an empty filename leaves the world
exactly as it was and redirects. -/
theorem upload_noop_redirect_witness :
    upload_file envW10 ⟨true, ""⟩ wW10 = some (wW10, Response.redirect) :=
  upload_noop_redirect envW10 ⟨true, ""⟩ wW10 (Or.inr rfl)

end YoloTif
